import Mathlib

/-!
Shallow embedding of `src/initialize.py` of the customer-contact application.

The Python module performs per-session initialization: it populates the
Streamlit session state, generates a session id, configures a process-wide
logger, and builds a langchain agent executor.  We model the Streamlit
session state as a record of `Option` fields (a field is `none` exactly when
the corresponding key is absent from `st.session_state`), the named logger as
a record of a level and a handler list, and the filesystem effect of
`os.makedirs(ct.LOG_DIR_PATH, exist_ok=True)` as a boolean flag.  Values the
claims never inspect (the tiktoken encoder, the ChatOpenAI object, the four
retrieval chains) are modelled as `Option Unit`: only their presence in the
session state matters to the code.

Constants imported from `constants.py` (module `ct`) are not part of the
sources available here; they are modelled from the spec and marked as such.
The agent execution loop itself lives in the external langchain library; the
code only configures it (`max_iterations`, `early_stopping_method="generate"`,
`handle_parsing_errors=True`).  Its behavior is modelled from the spec's
state-machine description (spec section 4.1) and marked as such.
-/

/-- Modelled from the spec: `constants.py` is not under `src/`; the spec only
says the logger is a single process-wide named logger. -/
def LOGGER_NAME : String := "application"

/-- Modelled from the spec: `constants.py` is not under `src/`; the spec names
a log directory configuration value. -/
def LOG_DIR_PATH : String := "logs"

/-- Modelled from the spec: `constants.py` is not under `src/`; the spec names
a log file configuration value. -/
def LOG_FILE : String := "application.log"

/-- Modelled from the spec: `constants.py` is not under `src/`; the spec
requires `max_iterations > 0`. -/
def AI_AGENT_MAX_ITERATIONS : Nat := 5

/-- Modelled from the spec: `constants.py` is not under `src/`; the spec
requires five tools with pairwise distinct stable names (company info tool). -/
def SEARCH_COMPANY_INFO_TOOL_NAME : String := "search_company_info"

/-- Modelled from the spec: service info tool name (see above). -/
def SEARCH_SERVICE_INFO_TOOL_NAME : String := "search_service_info"

/-- Modelled from the spec: customer communication tool name (see above). -/
def SEARCH_CUSTOMER_COMMUNICATION_INFO_TOOL_NAME : String := "search_customer_communication_info"

/-- Modelled from the spec: web search tool name (see above). -/
def SEARCH_WEB_INFO_TOOL_NAME : String := "search_web_info"

/-- Modelled from the spec: all-data search tool name (see above). -/
def SEARCH_ALL_DATA_TOOL_NAME : String := "search_all_data"

/-- A chat message, as the spec's data model describes entries of
`st.session_state.messages`. -/
structure Message where
  role : String
  content : String
deriving DecidableEq, Repr

/-- One langchain `Tool(name=..., func=..., description=...)` record.  The
`func` argument is an external callable; the claims only concern the name and
description, so invocation is not part of the record. -/
structure Tool where
  name : String
  description : String
deriving DecidableEq, Repr

/-- The configuration record produced by `initialize_agent(...)` in
`initialize_agent_executor` (src/initialize.py lines 184-191). -/
structure AgentConfig where
  tools : List Tool
  agentType : String
  max_iterations : Nat
  early_stopping_method : String
  handle_parsing_errors : Bool
deriving DecidableEq, Repr

/-- The Streamlit `st.session_state` keys written by `initialize.py`.  A field
is `none` exactly when the key is absent. -/
structure SessionState where
  messages : Option (List Message)
  chat_history : Option (List Message)
  total_tokens : Option Nat
  feedback_yes_flg : Option Bool
  feedback_no_flg : Option Bool
  answer_flg : Option Bool
  dissatisfied_reason : Option String
  feedback_no_reason_send_flg : Option Bool
  session_id : Option String
  enc : Option Unit
  llm : Option Unit
  customer_doc_chain : Option Unit
  service_doc_chain : Option Unit
  company_doc_chain : Option Unit
  rag_chain : Option Unit
  agent_executor : Option AgentConfig
deriving DecidableEq, Repr

/-- The `TimedRotatingFileHandler` built in `initialize_logger`
(src/initialize.py lines 90-98), together with the format string installed by
`setFormatter`. -/
structure LogFileHandler where
  filename : String
  whenInterval : String
  encoding : String
  formatString : String
deriving DecidableEq, Repr

/-- The process-wide named logger `logging.getLogger(ct.LOGGER_NAME)`:
its effective level (`none` = NOTSET) and attached handlers. -/
structure LoggerState where
  level : Option Nat
  handlers : List LogFileHandler
deriving DecidableEq, Repr

/-- The observable state `initialize.py` touches: the session state, the named
logger, and whether `os.makedirs(ct.LOG_DIR_PATH, exist_ok=True)` has created
the log directory. -/
structure World where
  session : SessionState
  logger : LoggerState
  log_dir_created : Bool
deriving DecidableEq, Repr

/-- `logging.INFO`. -/
def INFO : Nat := 20

/-- The constant head of the logger format string of src/initialize.py line
96, up to the interpolated session id. -/
def LOG_FORMAT_HEAD : String :=
  "[%(levelname)s] %(asctime)s line %(lineno)s, in %(funcName)s, "

/-- The constant tail of the logger format string of src/initialize.py line
96, after the interpolated session id. -/
def LOG_FORMAT_TAIL : String := ": %(message)s"

/-- The f-string of src/initialize.py line 96 evaluated at session id `sid`. -/
def logFormat (sid : String) : String :=
  LOG_FORMAT_HEAD ++ "session_id=" ++ sid ++ LOG_FORMAT_TAIL

/-- The handler built by `initialize_logger` for session id `sid`: a
`TimedRotatingFileHandler` on the single log file, rotating with `when="D"`,
with the formatter of line 96 installed. -/
def logHandler (sid : String) : LogFileHandler :=
  { filename := LOG_DIR_PATH ++ "/" ++ LOG_FILE
  , whenInterval := "D"
  , encoding := "utf8"
  , formatString := logFormat sid }

/-- `initialize_session_state` (src/initialize.py lines 49-68): all writes are
guarded by `if "messages" not in st.session_state`. -/
def initialize_session_state (s : SessionState) : SessionState :=
  if s.messages.isSome then s
  else
    { s with
      messages := some []
      chat_history := some []
      total_tokens := some 0
      feedback_yes_flg := some false
      feedback_no_flg := some false
      answer_flg := some false
      dissatisfied_reason := some ""
      feedback_no_reason_send_flg := some false }

/-- `initialize_session_id` (src/initialize.py lines 71-76); `fresh` stands
for the value of `uuid4().hex`, a nondeterministic input of the run. -/
def initialize_session_id (fresh : String) (s : SessionState) : SessionState :=
  if s.session_id.isSome then s
  else { s with session_id := some fresh }

/-- `initialize_logger` (src/initialize.py lines 79-100).  `os.makedirs` runs
unconditionally before the `hasHandlers` guard.  Building the formatter reads
`st.session_state.session_id` (line 96); if that key is absent the attribute
access raises, modelled as `none`. -/
def initialize_logger (w : World) : Option World :=
  if w.logger.handlers.isEmpty then
    match w.session.session_id with
    | none => none
    | some sid =>
        some { w with
               logger := { level := some INFO
                         , handlers := w.logger.handlers ++ [logHandler sid] }
             , log_dir_created := true }
  else some { w with log_dir_created := true }

/-- The `tools` list of src/initialize.py lines 127-181 (names are the
spec-modelled constants above; descriptions are the source strings). -/
def tools : List Tool :=
  [ { name := SEARCH_COMPANY_INFO_TOOL_NAME
    , description :=
        "会社に関する情報を検索します。このToolは、" ++
        "会社の概要、歴史、所在地、連絡先情報などを取得するために使用します。" ++
        "入力には具体的な会社名を含めてください。" }
  , { name := SEARCH_SERVICE_INFO_TOOL_NAME
    , description :=
        "サービスに関する情報を検索します。このToolは、" ++
        "提供されているサービスの詳細、料金、利用条件などを取得するために使用します。" ++
        "入力にはサービス名またはカテゴリを含めてください。" }
  , { name := SEARCH_CUSTOMER_COMMUNICATION_INFO_TOOL_NAME
    , description :=
        "顧客とのやり取りに関する情報を検索します。このToolは、" ++
        "過去の問い合わせ履歴、対応状況、顧客満足度などを取得するために使用します。" ++
        "入力には顧客名または問い合わせIDを含めてください。" }
  , { name := SEARCH_WEB_INFO_TOOL_NAME
    , description :=
        "インターネット上の情報を検索します。このToolは、" ++
        "一般的な質問や外部情報を取得するために使用します。" ++
        "入力には具体的な検索クエリを含めてください。" }
  , { name := SEARCH_ALL_DATA_TOOL_NAME
    , description :=
        "すべてのデータベースを横断的に検索します。このToolは、" ++
        "会社、サービス、顧客情報を含む複数のデータソースから情報を取得するために使用します。" ++
        "特定のカテゴリに限定されない質問や、複数のカテゴリにまたがる質問に適しています。" ++
        "例えば、『EcoTeeに関するすべての情報を教えてください』や、" ++
        "『顧客とサービスに関する関連情報をまとめて教えてください』といった質問に対応します。" ++
        "入力には具体的なキーワードを含めてください。" } ]

/-- The agent executor configuration passed to `initialize_agent`
(src/initialize.py lines 184-191). -/
def agentExecutorConfig : AgentConfig :=
  { tools := tools
  , agentType := "ZERO_SHOT_REACT_DESCRIPTION"
  , max_iterations := AI_AGENT_MAX_ITERATIONS
  , early_stopping_method := "generate"
  , handle_parsing_errors := true }

/-- `initialize_agent_executor` (src/initialize.py lines 103-191): guarded by
`if "agent_executor" in st.session_state`; otherwise stores the encoder, the
llm, the four retrieval chains and the agent executor. -/
def initialize_agent_executor (w : World) : World :=
  if w.session.agent_executor.isSome then w
  else
    { w with
      session :=
        { w.session with
          enc := some ()
          llm := some ()
          customer_doc_chain := some ()
          service_doc_chain := some ()
          company_doc_chain := some ()
          rag_chain := some ()
          agent_executor := some agentExecutorConfig } }

/-- `initialize` (src/initialize.py lines 35-46): the four sub-steps in source
order.  Named `initialize_all` here. -/
def initialize_all (fresh : String) (w : World) : Option World :=
  let w1 : World := { w with session := initialize_session_state w.session }
  let w2 : World := { w1 with session := initialize_session_id fresh w1.session }
  match initialize_logger w2 with
  | none => none
  | some w3 => some (initialize_agent_executor w3)

/-- `n` successive calls of `initialize_logger` within one process. -/
def initialize_logger_iter : Nat → World → Option World
  | 0, w => some w
  | n + 1, w => (initialize_logger w).bind (initialize_logger_iter n)

/-- Modelled from the spec: the agent execution loop is implemented by the
external langchain library (`initialize_agent` merely configures it); spec
section 4.1 describes one model-call outcome as a final answer, a parsed tool
call, or malformed text that fails to parse. -/
inductive ModelOutput where
  | answer (text : String)
  | toolCall (toolName input : String)
  | malformed (raw : String)
deriving DecidableEq, Repr

/-- Modelled from the spec: outcome of one user turn of the agent controller.
`answered` is a voluntary final answer; `forcedAnswer` is the best-effort
answer generated when the iteration ceiling is reached with
`early_stopping_method = "generate"`; `stopped` is the non-generating early
stop used for any other `early_stopping_method`; `parseFault` is the fault
raised on malformed model output when `handle_parsing_errors` is false. -/
inductive TurnOutcome where
  | answered (text : String)
  | forcedAnswer (text : String)
  | stopped (text : String)
  | parseFault (raw : String)
deriving DecidableEq, Repr

/-- Modelled from the spec: the observable events of one turn — each tool
invocation, and each recovery from malformed model output. -/
inductive AgentEvent where
  | toolInvocation (toolName input output : String)
  | parseRecovery (raw : String)
deriving DecidableEq, Repr

/-- Modelled from the spec: the synthetic observation describing a parse
failure that is fed back into the loop. -/
def parseErrorObservation (raw : String) : String :=
  "Invalid or incomplete response: " ++ raw

/-- Whether a turn outcome is an error outcome (a raised fault). -/
def isFault : TurnOutcome → Bool
  | .parseFault _ => true
  | _ => false

/-- Modelled from the spec (section 4.1): the agent controller's loop.
`model` is the bound language model viewed as a function from the observation
context accumulated so far to its next output; `gen` is the extra
best-effort-answer generation call used by early stopping; `toolFn` is the
external tool invocation.  The first `Nat` argument is the number of
iterations still allowed; each malformed output or tool invocation consumes
one iteration, and when it reaches zero the turn is terminated by the early
stopping policy. -/
def agentLoop (cfg : AgentConfig) (model : List String → ModelOutput)
    (gen : List String → String) (toolFn : String → String → String) :
    Nat → List String → TurnOutcome × List AgentEvent
  | 0, obs =>
      if cfg.early_stopping_method = "generate" then (.forcedAnswer (gen obs), [])
      else (.stopped "Agent stopped due to iteration limit.", [])
  | fuel + 1, obs =>
      match model obs with
      | .answer t => (.answered t, [])
      | .toolCall n i =>
          let out := toolFn n i
          let r := agentLoop cfg model gen toolFn fuel (obs ++ [out])
          (r.1, .toolInvocation n i out :: r.2)
      | .malformed raw =>
          if cfg.handle_parsing_errors then
            let r := agentLoop cfg model gen toolFn fuel
                       (obs ++ [parseErrorObservation raw])
            (r.1, .parseRecovery raw :: r.2)
          else (.parseFault raw, [])

/-- Modelled from the spec: one full user turn of the agent controller, run
with a fresh iteration counter bounded by `cfg.max_iterations`. -/
def runTurn (cfg : AgentConfig) (model : List String → ModelOutput)
    (gen : List String → String) (toolFn : String → String → String) :
    TurnOutcome × List AgentEvent :=
  agentLoop cfg model gen toolFn cfg.max_iterations []

/-- Whether an agent event is a tool invocation. -/
def isToolInvocation : AgentEvent → Bool
  | .toolInvocation _ _ _ => true
  | _ => false

/-- Number of tool invocations among the events of a turn. -/
def countToolInvocations (evs : List AgentEvent) : Nat :=
  (evs.filter isToolInvocation).length

/-- `tag` occurs verbatim inside `s`. -/
def containsTag (tag s : String) : Prop :=
  tag.data <:+: s.data

/-- The observable facts that hold of a world once `initialize` has run:
every guard key is present, the logger has a handler, and the log directory
exists. -/
def postInit (w : World) : Prop :=
  w.session.messages.isSome ∧ w.session.session_id.isSome ∧
    w.logger.handlers ≠ [] ∧ w.log_dir_created = true ∧
    w.session.agent_executor.isSome

/-- A session state with every key absent: a brand-new Streamlit session. -/
def emptySessionState : SessionState :=
  { messages := none, chat_history := none, total_tokens := none
  , feedback_yes_flg := none, feedback_no_flg := none, answer_flg := none
  , dissatisfied_reason := none, feedback_no_reason_send_flg := none
  , session_id := none, enc := none, llm := none
  , customer_doc_chain := none, service_doc_chain := none
  , company_doc_chain := none, rag_chain := none, agent_executor := none }

/-- A session state holding only the `messages` key. -/
def messagesOnlySessionState : SessionState :=
  { emptySessionState with messages := some [] }

/-- A fresh process and a fresh session: nothing initialized yet. -/
def emptyWorld : World :=
  { session := emptySessionState
  , logger := { level := none, handlers := [] }
  , log_dir_created := false }

/-- A world whose logger already carries a handler. -/
def handledWorld : World :=
  { session := emptySessionState
  , logger := { level := some INFO, handlers := [logHandler "abc"] }
  , log_dir_created := false }

/-- A fresh world that already knows its session id. -/
def sidWorld : World :=
  { session := { emptySessionState with session_id := some "abc" }
  , logger := { level := none, handlers := [] }
  , log_dir_created := false }

/-- The world produced by running the initialization sequence on `emptyWorld`
with session id `"abc"`. -/
def initializedWorld : World :=
  (initialize_all "abc" emptyWorld).getD emptyWorld

/-! ### Helper lemmas -/

theorem world_set_dir_eq (w : World) (h : w.log_dir_created = true) :
    { w with log_dir_created := true } = w := by
  cases w
  simp_all

theorem logger_noop_of_handlers_ne (w : World) (h : w.logger.handlers ≠ []) :
    initialize_logger w = some { w with log_dir_created := true } := by
  unfold initialize_logger
  simp [List.isEmpty_eq_false.mpr h]

theorem logger_build_of_empty (w : World) (sid : String)
    (hh : w.logger.handlers = []) (hs : w.session.session_id = some sid) :
    initialize_logger w =
      some { w with
             logger := { level := some INFO, handlers := [logHandler sid] }
           , log_dir_created := true } := by
  unfold initialize_logger
  simp [hh, hs]

theorem logger_session_eq (w w' : World) (h : initialize_logger w = some w') :
    w'.session = w.session := by
  unfold initialize_logger at h
  split at h
  · split at h
    · exact absurd h (by simp)
    · cases h
      rfl
  · cases h
    rfl

theorem logger_dir_created (w w' : World) (h : initialize_logger w = some w') :
    w'.log_dir_created = true := by
  unfold initialize_logger at h
  split at h
  · split at h
    · exact absurd h (by simp)
    · cases h
      rfl
  · cases h
    rfl

theorem logger_preserves_handlers (w w' : World)
    (hne : w.logger.handlers ≠ []) (h : initialize_logger w = some w') :
    w'.logger = w.logger := by
  rw [logger_noop_of_handlers_ne w hne] at h
  cases h
  rfl

theorem iss_noop (s : SessionState) (h : s.messages.isSome) :
    initialize_session_state s = s := by
  unfold initialize_session_state
  simp [h]

theorem iss_messages_isSome (s : SessionState) :
    (initialize_session_state s).messages.isSome := by
  unfold initialize_session_state
  split
  · assumption
  · rfl

theorem iss_session_id (s : SessionState) :
    (initialize_session_state s).session_id = s.session_id := by
  unfold initialize_session_state
  split <;> rfl

theorem iss_agent_executor (s : SessionState) :
    (initialize_session_state s).agent_executor = s.agent_executor := by
  unfold initialize_session_state
  split <;> rfl

theorem isid_noop (fresh : String) (s : SessionState) (h : s.session_id.isSome) :
    initialize_session_id fresh s = s := by
  unfold initialize_session_id
  simp [h]

theorem isid_session_id_isSome (fresh : String) (s : SessionState) :
    (initialize_session_id fresh s).session_id.isSome := by
  unfold initialize_session_id
  split
  · assumption
  · rfl

theorem isid_messages (fresh : String) (s : SessionState) :
    (initialize_session_id fresh s).messages = s.messages := by
  unfold initialize_session_id
  split <;> rfl

theorem isid_agent_executor (fresh : String) (s : SessionState) :
    (initialize_session_id fresh s).agent_executor = s.agent_executor := by
  unfold initialize_session_id
  split <;> rfl

theorem iae_noop (w : World) (h : w.session.agent_executor.isSome) :
    initialize_agent_executor w = w := by
  unfold initialize_agent_executor
  simp [h]

theorem iae_agent_executor_isSome (w : World) :
    (initialize_agent_executor w).session.agent_executor.isSome := by
  unfold initialize_agent_executor
  split
  · assumption
  · rfl

theorem iae_logger (w : World) :
    (initialize_agent_executor w).logger = w.logger := by
  unfold initialize_agent_executor
  split <;> rfl

theorem iae_dir (w : World) :
    (initialize_agent_executor w).log_dir_created = w.log_dir_created := by
  unfold initialize_agent_executor
  split <;> rfl

theorem iae_messages (w : World) :
    (initialize_agent_executor w).session.messages = w.session.messages := by
  unfold initialize_agent_executor
  split <;> rfl

theorem iae_session_id (w : World) :
    (initialize_agent_executor w).session.session_id = w.session.session_id := by
  unfold initialize_agent_executor
  split <;> rfl

/-! ### Claim theorems -/

/-- C10: `initialize_session_state` guards all its writes on the single key
`"messages"`: when that key is absent it sets `messages` and `chat_history`
to empty lists, `total_tokens` to `0`, the four feedback flags to `False` and
`dissatisfied_reason` to the empty string; when the key is present it leaves
every session-state field unchanged, even ones that are missing. -/
theorem initialize_session_state_guard (s : SessionState) :
    (s.messages = none →
      initialize_session_state s =
        { s with
          messages := some []
          chat_history := some []
          total_tokens := some 0
          feedback_yes_flg := some false
          feedback_no_flg := some false
          answer_flg := some false
          dissatisfied_reason := some ""
          feedback_no_reason_send_flg := some false }) ∧
    (s.messages.isSome → initialize_session_state s = s) := by
  constructor
  · intro h
    unfold initialize_session_state
    simp [h]
  · intro h
    exact iss_noop s h

/-- Witness for C10: both guard branches at concrete session states. -/
theorem initialize_session_state_guard_witness :
    initialize_session_state emptySessionState =
      { emptySessionState with
        messages := some []
        chat_history := some []
        total_tokens := some 0
        feedback_yes_flg := some false
        feedback_no_flg := some false
        answer_flg := some false
        dissatisfied_reason := some ""
        feedback_no_reason_send_flg := some false } ∧
    initialize_session_state messagesOnlySessionState = messagesOnlySessionState :=
  ⟨(initialize_session_state_guard emptySessionState).1 rfl,
   (initialize_session_state_guard messagesOnlySessionState).2 rfl⟩

/-- C9: every call to `initialize_logger` creates the log directory before the
handler guard is checked, so even the nominal no-op path (handlers already
attached) has that filesystem effect; and on that no-op path nothing but the
directory flag changes — in particular the logger's level and handlers are
untouched. -/
theorem initialize_logger_frame (w : World) :
    (∀ w', initialize_logger w = some w' → w'.log_dir_created = true) ∧
    (w.logger.handlers ≠ [] →
      initialize_logger w = some { w with log_dir_created := true }) := by
  constructor
  · intro w' h
    exact logger_dir_created w w' h
  · intro h
    exact logger_noop_of_handlers_ne w h

/-- Witness for C9: on a world whose logger already has a handler, the call
still sets the directory flag and changes nothing else. -/
theorem initialize_logger_frame_witness :
    initialize_logger handledWorld =
      some { handledWorld with log_dir_created := true } ∧
    ({ handledWorld with log_dir_created := true } : World).log_dir_created = true := by
  have h := (initialize_logger_frame handledWorld).2 (by simp [handledWorld])
  exact ⟨h, (initialize_logger_frame handledWorld).1 _ h⟩

theorem iter_preserves_handlers (m : Nat) :
    ∀ w : World, w.logger.handlers ≠ [] →
      ∃ w', initialize_logger_iter m w = some w' ∧
        w'.logger.handlers = w.logger.handlers := by
  induction m with
  | zero =>
      intro w _
      exact ⟨w, rfl, rfl⟩
  | succ k ih =>
      intro w hne
      have hstep := logger_noop_of_handlers_ne w hne
      have hne' : ({ w with log_dir_created := true } : World).logger.handlers ≠ [] := hne
      obtain ⟨w', hrun, hpres⟩ := ih { w with log_dir_created := true } hne'
      refine ⟨w', ?_, hpres⟩
      unfold initialize_logger_iter
      rw [hstep]
      exact hrun

/-- C2: for every `n ≥ 1`, after `n` calls of `initialize_logger` within one
process the shared logger carries exactly one handler — the
`TimedRotatingFileHandler` attached by the first call; every later call
returns without attaching another because the logger already has handlers. -/
theorem initialize_logger_exactly_one_handler (n : Nat) (w : World) (sid : String)
    (hh : w.logger.handlers = []) (hs : w.session.session_id = some sid)
    (hn : 1 ≤ n) :
    ∃ w', initialize_logger_iter n w = some w' ∧
      w'.logger.handlers = [logHandler sid] := by
  obtain ⟨m, rfl⟩ : ∃ m, n = m + 1 := ⟨n - 1, by omega⟩
  have hstep := logger_build_of_empty w sid hh hs
  set w1 : World :=
    { w with
      logger := { level := some INFO, handlers := [logHandler sid] }
    , log_dir_created := true } with hw1
  have hne : w1.logger.handlers ≠ [] := by simp [hw1]
  obtain ⟨w', hrun, hpres⟩ := iter_preserves_handlers m w1 hne
  refine ⟨w', ?_, by rw [hpres]⟩
  unfold initialize_logger_iter
  rw [hstep]
  simpa [hw1] using hrun

/-- Witness for C2: three calls on a fresh world that knows its session id
leave exactly the one handler attached by the first call. -/
theorem initialize_logger_exactly_one_handler_witness :
    ∃ w', initialize_logger_iter 3 sidWorld = some w' ∧
      w'.logger.handlers = [logHandler "abc"] :=
  initialize_logger_exactly_one_handler 3 sidWorld "abc" rfl rfl (by decide)

theorem logger_total_of_sid (w : World) (h : w.session.session_id.isSome) :
    ∃ w3, initialize_logger w = some w3 ∧ w3.session = w.session ∧
      w3.logger.handlers ≠ [] ∧ w3.log_dir_created = true := by
  by_cases hem : w.logger.handlers = []
  · obtain ⟨sid, hsid⟩ := Option.isSome_iff_exists.mp h
    exact ⟨_, logger_build_of_empty w sid hem hsid, rfl, by simp, rfl⟩
  · exact ⟨_, logger_noop_of_handlers_ne w hem, rfl, hem, rfl⟩

theorem initialize_all_postInit (f : String) (w : World) :
    ∃ w', initialize_all f w = some w' ∧ postInit w' := by
  obtain ⟨w3, hlog, hsess, hhand, hdir⟩ :=
    logger_total_of_sid
      { w with session := initialize_session_id f (initialize_session_state w.session) }
      (isid_session_id_isSome f _)
  refine ⟨initialize_agent_executor w3, ?_, ?_, ?_, ?_, ?_, ?_⟩
  · simp only [initialize_all]
    rw [hlog]
  · rw [iae_messages, hsess]
    show (initialize_session_id f (initialize_session_state w.session)).messages.isSome
    rw [isid_messages]
    exact iss_messages_isSome _
  · rw [iae_session_id, hsess]
    exact isid_session_id_isSome f _
  · rw [iae_logger]
    exact hhand
  · rw [iae_dir]
    exact hdir
  · exact iae_agent_executor_isSome w3

/-- C1: for every starting state, the full initialization sequence succeeds,
and on its result every sub-step — session-state population, session-id
generation, logger setup, agent-executor creation — is a no-op, so running
the sequence a second time (with any other fresh uuid) returns the same
observable state. -/
theorem initialize_idempotent (w : World) (f₁ f₂ : String) :
    ∃ w', initialize_all f₁ w = some w' ∧
      initialize_session_state w'.session = w'.session ∧
      initialize_session_id f₂ w'.session = w'.session ∧
      initialize_logger w' = some w' ∧
      initialize_agent_executor w' = w' ∧
      initialize_all f₂ w' = some w' := by
  obtain ⟨w', hrun, hmsg, hsid, hhand, hdir, hae⟩ := initialize_all_postInit f₁ w
  have h1 : initialize_session_state w'.session = w'.session := iss_noop _ hmsg
  have h2 : initialize_session_id f₂ w'.session = w'.session := isid_noop f₂ _ hsid
  have h3 : initialize_logger w' = some w' := by
    rw [logger_noop_of_handlers_ne w' hhand, world_set_dir_eq w' hdir]
  have h4 : initialize_agent_executor w' = w' := iae_noop w' hae
  refine ⟨w', hrun, h1, h2, h3, h4, ?_⟩
  simp only [initialize_all]
  rw [h1, h2]
  have heta : ({ w' with session := w'.session } : World) = w' := rfl
  rw [heta, h3]
  exact congrArg some h4

theorem logger_build_exists (w : World) (sid : String)
    (hh : w.logger.handlers = []) (hs : w.session.session_id = some sid) :
    ∃ w3, initialize_logger w = some w3 ∧ w3.session = w.session ∧
      w3.logger.handlers = [logHandler sid] :=
  ⟨_, logger_build_of_empty w sid hh hs, rfl, rfl⟩

/-- C3: the initialization sequence runs its sub-steps in the source order —
session state, session id, logger, agent controller.  Consequence proved
here: starting from a session with no session id and a logger with no
handler, the session id generated by the second sub-step is already in the
session state when the third sub-step builds the logger's format string, so
the attached handler's format embeds exactly that freshly generated id (had
the logger step run first, the format construction would have faulted on the
missing key). -/
theorem initialize_order_id_before_logger (w : World) (fresh : String)
    (hid : w.session.session_id = none) (hh : w.logger.handlers = []) :
    ∃ w', initialize_all fresh w = some w' ∧
      w'.session.session_id = some fresh ∧
      w'.logger.handlers = [logHandler fresh] ∧
      (logHandler fresh).formatString = logFormat fresh := by
  have h0 : (initialize_session_state w.session).session_id = none := by
    rw [iss_session_id]
    exact hid
  have hsid2 :
      (initialize_session_id fresh (initialize_session_state w.session)).session_id
        = some fresh := by
    unfold initialize_session_id
    rw [h0]
    simp
  obtain ⟨w3, hlog, hsess, hhand⟩ :=
    logger_build_exists
      { w with session := initialize_session_id fresh (initialize_session_state w.session) }
      fresh hh hsid2
  refine ⟨initialize_agent_executor w3, ?_, ?_, ?_, rfl⟩
  · simp only [initialize_all]
    rw [hlog]
  · rw [iae_session_id, hsess]
    exact hsid2
  · rw [iae_logger]
    exact hhand

/-- Witness for C3 at a fresh world and a concrete uuid. -/
theorem initialize_order_id_before_logger_witness :
    ∃ w', initialize_all "abc" emptyWorld = some w' ∧
      w'.session.session_id = some "abc" ∧
      w'.logger.handlers = [logHandler "abc"] ∧
      (logHandler "abc").formatString = logFormat "abc" :=
  initialize_order_id_before_logger emptyWorld "abc" rfl rfl

/-- C4: after initialization of a session that had no agent executor, the
registered agent executor is exactly the configuration built at lines
127-191: its tool set is fixed at exactly five tools, is non-empty, has
pairwise-distinct tool names, and its `max_iterations` bound is strictly
positive. -/
theorem agent_executor_invariants (w w' : World) (fresh : String)
    (hae : w.session.agent_executor = none)
    (hrun : initialize_all fresh w = some w') :
    w'.session.agent_executor = some agentExecutorConfig ∧
    agentExecutorConfig.tools.length = 5 ∧
    agentExecutorConfig.tools ≠ [] ∧
    (agentExecutorConfig.tools.map Tool.name).Nodup ∧
    0 < agentExecutorConfig.max_iterations := by
  refine ⟨?_, by decide, by decide, by decide, by decide⟩
  simp only [initialize_all] at hrun
  set w2 : World :=
    { w with session := initialize_session_id fresh (initialize_session_state w.session) }
    with hw2
  cases hlog : initialize_logger w2 with
  | none =>
      rw [hlog] at hrun
      cases hrun
  | some w3 =>
      rw [hlog] at hrun
      cases hrun
      have hs3 : w3.session = w2.session := logger_session_eq w2 w3 hlog
      have hae3 : w3.session.agent_executor = none := by
        rw [hs3, hw2]
        show (initialize_session_id fresh (initialize_session_state w.session)).agent_executor = none
        rw [isid_agent_executor, iss_agent_executor]
        exact hae
      unfold initialize_agent_executor
      rw [hae3]
      rfl

/-- Witness for C4: the invariants at the concretely initialized world. -/
theorem agent_executor_invariants_witness :
    initializedWorld.session.agent_executor = some agentExecutorConfig ∧
    agentExecutorConfig.tools.length = 5 ∧
    agentExecutorConfig.tools ≠ [] ∧
    (agentExecutorConfig.tools.map Tool.name).Nodup ∧
    0 < agentExecutorConfig.max_iterations :=
  agent_executor_invariants emptyWorld initializedWorld "abc" rfl rfl

theorem infix_append_of_left {t a : List Char} (b : List Char)
    (h : t <:+: a) : t <:+: a ++ b :=
  h.trans (List.prefix_append a b).isInfix

theorem infix_append_of_right {t b : List Char} (a : List Char)
    (h : t <:+: b) : t <:+: a ++ b :=
  h.trans (List.suffix_append a b).isInfix

theorem logFormat_data (sid : String) :
    (logFormat sid).data =
      LOG_FORMAT_HEAD.data ++
        (("session_id=".data ++ sid.data) ++ LOG_FORMAT_TAIL.data) := by
  simp [logFormat, String.data_append, List.append_assoc]

theorem containsTag_of_head {tag : String} (sid : String)
    (h : tag.data <:+: LOG_FORMAT_HEAD.data) : containsTag tag (logFormat sid) := by
  unfold containsTag
  rw [logFormat_data]
  exact infix_append_of_left _ h

/-- C8: the sink configured by `initialize_logger` is the single log file,
rotated on a daily boundary (`when="D"`), and its line format carries the
severity (`%(levelname)s`), the timestamp (`%(asctime)s`), the source
location (`line %(lineno)s`), the function name (`%(funcName)s`), the session
id (`session_id=<sid>`), and the message (`%(message)s`). -/
theorem log_handler_daily_rotation_and_fields (sid : String) :
    (logHandler sid).filename = LOG_DIR_PATH ++ "/" ++ LOG_FILE ∧
    (logHandler sid).whenInterval = "D" ∧
    containsTag "%(levelname)s" (logHandler sid).formatString ∧
    containsTag "%(asctime)s" (logHandler sid).formatString ∧
    containsTag "line %(lineno)s" (logHandler sid).formatString ∧
    containsTag "%(funcName)s" (logHandler sid).formatString ∧
    containsTag ("session_id=" ++ sid) (logHandler sid).formatString ∧
    containsTag "%(message)s" (logHandler sid).formatString := by
  have hfmt : (logHandler sid).formatString = logFormat sid := rfl
  rw [hfmt]
  refine ⟨rfl, rfl, ?_, ?_, ?_, ?_, ?_, ?_⟩
  · exact containsTag_of_head sid (by decide)
  · exact containsTag_of_head sid (by decide)
  · exact containsTag_of_head sid (by decide)
  · exact containsTag_of_head sid (by decide)
  · unfold containsTag
    rw [logFormat_data, String.data_append]
    exact infix_append_of_right _ (infix_append_of_left _ (List.infix_refl _))
  · unfold containsTag
    rw [logFormat_data]
    exact infix_append_of_right _ (infix_append_of_right _ (by decide))

theorem countToolInvocations_cons_tool (n i o : String) (evs : List AgentEvent) :
    countToolInvocations (AgentEvent.toolInvocation n i o :: evs) =
      countToolInvocations evs + 1 := by
  simp [countToolInvocations, List.filter, isToolInvocation]

theorem countToolInvocations_cons_recovery (raw : String) (evs : List AgentEvent) :
    countToolInvocations (AgentEvent.parseRecovery raw :: evs) =
      countToolInvocations evs := by
  simp [countToolInvocations, List.filter, isToolInvocation]

theorem agentLoop_tool_count_le (cfg : AgentConfig)
    (model : List String → ModelOutput) (gen : List String → String)
    (toolFn : String → String → String) :
    ∀ (fuel : Nat) (obs : List String),
      countToolInvocations (agentLoop cfg model gen toolFn fuel obs).2 ≤ fuel := by
  intro fuel
  induction fuel with
  | zero =>
      intro obs
      unfold agentLoop
      split <;> simp [countToolInvocations]
  | succ k ih =>
      intro obs
      unfold agentLoop
      cases hm : model obs with
      | answer t => simp [countToolInvocations]
      | toolCall n i =>
          simp only
          rw [countToolInvocations_cons_tool]
          exact Nat.add_le_add_right (ih _) 1
      | malformed raw =>
          simp only
          split
          · rw [countToolInvocations_cons_recovery]
            exact Nat.le_succ_of_le (ih _)
          · simp [countToolInvocations]

/-- C5: for every single user turn, the agent controller as configured in
`initialize_agent_executor` performs at most `max_iterations` tool
invocations before the loop is forced to terminate. -/
theorem agent_tool_invocations_bounded (model : List String → ModelOutput)
    (gen : List String → String) (toolFn : String → String → String) :
    countToolInvocations (runTurn agentExecutorConfig model gen toolFn).2 ≤
      agentExecutorConfig.max_iterations :=
  agentLoop_tool_count_le agentExecutorConfig model gen toolFn
    agentExecutorConfig.max_iterations []

theorem agentLoop_no_fault (cfg : AgentConfig)
    (model : List String → ModelOutput) (gen : List String → String)
    (toolFn : String → String → String)
    (hh : cfg.handle_parsing_errors = true) :
    ∀ (fuel : Nat) (obs : List String),
      isFault (agentLoop cfg model gen toolFn fuel obs).1 = false := by
  intro fuel
  induction fuel with
  | zero =>
      intro obs
      unfold agentLoop
      split <;> rfl
  | succ k ih =>
      intro obs
      unfold agentLoop
      cases hm : model obs with
      | answer t => rfl
      | toolCall n i => exact ih _
      | malformed raw =>
          simp only [hh, if_true]
          exact ih _

theorem agentLoop_forced_of_no_answer (cfg : AgentConfig)
    (model : List String → ModelOutput) (gen : List String → String)
    (toolFn : String → String → String)
    (hstop : cfg.early_stopping_method = "generate")
    (hh : cfg.handle_parsing_errors = true)
    (hna : ∀ obs t, model obs ≠ ModelOutput.answer t) :
    ∀ (fuel : Nat) (obs : List String),
      ∃ obs', (agentLoop cfg model gen toolFn fuel obs).1 =
        TurnOutcome.forcedAnswer (gen obs') := by
  intro fuel
  induction fuel with
  | zero =>
      intro obs
      refine ⟨obs, ?_⟩
      unfold agentLoop
      rw [if_pos hstop]
  | succ k ih =>
      intro obs
      unfold agentLoop
      cases hm : model obs with
      | answer t => exact absurd hm (hna obs t)
      | toolCall n i => exact ih _
      | malformed raw =>
          simp only [hh, if_true]
          exact ih _

/-- C6: with the source configuration (`early_stopping_method="generate"`,
`handle_parsing_errors=True`), a turn in which the model never volunteers a
final answer — so the iteration counter reaches `max_iterations` — terminates
with a best-effort generated answer, not with an error outcome. -/
theorem agent_exhaustion_forced_generation (model : List String → ModelOutput)
    (gen : List String → String) (toolFn : String → String → String)
    (hna : ∀ obs t, model obs ≠ ModelOutput.answer t) :
    ∃ obs', (runTurn agentExecutorConfig model gen toolFn).1 =
        TurnOutcome.forcedAnswer (gen obs') ∧
      isFault (runTurn agentExecutorConfig model gen toolFn).1 = false := by
  obtain ⟨obs', h⟩ :=
    agentLoop_forced_of_no_answer agentExecutorConfig model gen toolFn rfl rfl hna
      agentExecutorConfig.max_iterations []
  refine ⟨obs', h, ?_⟩
  rw [runTurn, h]
  rfl

/-- Witness for C6: a model that always asks for the same tool exhausts the
iterations and the turn ends in a forced generated answer. -/
theorem agent_exhaustion_forced_generation_witness :
    ∃ _obs : List String,
      (runTurn agentExecutorConfig (fun _ => ModelOutput.toolCall "a" "b")
        (fun _ => "best") (fun _ _ => "obs")).1 =
        TurnOutcome.forcedAnswer "best" ∧
      isFault (runTurn agentExecutorConfig (fun _ => ModelOutput.toolCall "a" "b")
        (fun _ => "best") (fun _ _ => "obs")).1 = false :=
  agent_exhaustion_forced_generation (fun _ => ModelOutput.toolCall "a" "b")
    (fun _ => "best") (fun _ _ => "obs") (fun _ _ h => ModelOutput.noConfusion h)

/-- C7: when the model's output fails to parse as a tool call and
`handle_parsing_errors` is on, the controller raises no fault: the turn's
outcome is never an error, the loop continues on the context extended with a
synthetic observation describing the parse failure, and exactly one iteration
is consumed by the recovery. -/
theorem agent_parse_error_recovery (cfg : AgentConfig)
    (model : List String → ModelOutput) (gen : List String → String)
    (toolFn : String → String → String)
    (fuel : Nat) (obs : List String) (raw : String)
    (hh : cfg.handle_parsing_errors = true)
    (hm : model obs = ModelOutput.malformed raw) :
    isFault (agentLoop cfg model gen toolFn (fuel + 1) obs).1 = false ∧
    (agentLoop cfg model gen toolFn (fuel + 1) obs).1 =
      (agentLoop cfg model gen toolFn fuel (obs ++ [parseErrorObservation raw])).1 ∧
    (agentLoop cfg model gen toolFn (fuel + 1) obs).2 =
      AgentEvent.parseRecovery raw ::
        (agentLoop cfg model gen toolFn fuel (obs ++ [parseErrorObservation raw])).2 := by
  refine ⟨agentLoop_no_fault cfg model gen toolFn hh (fuel + 1) obs, ?_, ?_⟩
  · conv =>
      lhs
      unfold agentLoop
    rw [hm]
    simp [hh]
  · conv =>
      lhs
      unfold agentLoop
    rw [hm]
    simp [hh]

/-- Witness for C7: a concrete malformed output is recovered, not raised. -/
theorem agent_parse_error_recovery_witness :
    isFault (agentLoop agentExecutorConfig (fun _ => ModelOutput.malformed "oops")
        (fun _ => "g") (fun _ _ => "o") (1 + 1) []).1 = false ∧
    (agentLoop agentExecutorConfig (fun _ => ModelOutput.malformed "oops")
        (fun _ => "g") (fun _ _ => "o") (1 + 1) []).1 =
      (agentLoop agentExecutorConfig (fun _ => ModelOutput.malformed "oops")
        (fun _ => "g") (fun _ _ => "o") 1 ([] ++ [parseErrorObservation "oops"])).1 ∧
    (agentLoop agentExecutorConfig (fun _ => ModelOutput.malformed "oops")
        (fun _ => "g") (fun _ _ => "o") (1 + 1) []).2 =
      AgentEvent.parseRecovery "oops" ::
        (agentLoop agentExecutorConfig (fun _ => ModelOutput.malformed "oops")
          (fun _ => "g") (fun _ _ => "o") 1 ([] ++ [parseErrorObservation "oops"])).2 :=
  agent_parse_error_recovery agentExecutorConfig (fun _ => ModelOutput.malformed "oops")
    (fun _ => "g") (fun _ _ => "o") 1 [] "oops" rfl rfl
